import Mathlib

/-!
Shallow embedding of the authentication/authorization core of the
employeHR backend (apps/backend/src/modules/auth and
apps/backend/src/middlewares), together with proofs of the spec claims.

Faithfulness notes on the embedding:
* JWTs are modelled symbolically: `jwt.sign` records payload, issued-at,
  expiry and the signing secret; `jwt.verify` checks the secret and the
  expiry exactly in the order of the `jsonwebtoken` library (decode /
  signature check first, then the `clockTimestamp >= exp` expiry check).
  Structural equality of `Jwt` values models string equality of encoded
  tokens (HS256 signing is deterministic and the encoding is injective).
* In the `jsonwebtoken` library, `TokenExpiredError` is a subclass of
  `JsonWebTokenError`; therefore `error instanceof jwt.JsonWebTokenError`
  is true for expired-token errors as well.  `JwtError.isJsonWebTokenError`
  reflects that class hierarchy.
* The Mongo-backed credential store is modelled as a list of user
  documents; `findOne`/`findById` are first-match lookups and
  `doc.save()` / `findByIdAndUpdate` are per-id record updates.
* bcrypt lives outside the repository; `loginUser` takes the comparison
  function (`user.comparePassword`) as an explicit parameter `cmp`.
-/

namespace EmployeHR

/-- Roles from `auth.types.ts` (`enum UserRole`). -/
inductive UserRole where
  | SUPER_ADMIN
  | HR
  | MANAGER
  | EMPLOYEE
deriving DecidableEq, Repr

/-- `JWTPayload` from `auth.types.ts`: userId, email, role. -/
structure JWTPayload where
  userId : String
  email : String
  role : UserRole
deriving DecidableEq, Repr

/-- A JWT payload as actually signed by this code base: either the access
payload (`JWTPayload`) or the refresh payload `{ userId }`. -/
inductive Payload where
  | access (p : JWTPayload)
  | refresh (userId : String)
deriving DecidableEq, Repr

/-- The `userId` property read off a decoded payload (`decoded.userId` in
`refreshAccessToken`); both payload shapes carry it. -/
def Payload.userId : Payload → String
  | .access p => p.userId
  | .refresh uid => uid

/-- Symbolic JWT: a signed token records payload, iat, exp and the secret
used to sign; anything that does not decode is `malformed`. -/
inductive Jwt where
  | signed (payload : Payload) (iat : Nat) (exp : Nat) (secret : String)
  | malformed (raw : String)
deriving DecidableEq, Repr

/-- Errors thrown by `jsonwebtoken`'s `verify`. -/
inductive JwtError where
  | jsonWebTokenError (msg : String)
  | tokenExpiredError
deriving DecidableEq, Repr

/-- `error instanceof jwt.JsonWebTokenError`: true for every verification
error, because `TokenExpiredError extends JsonWebTokenError` in the
`jsonwebtoken` library. -/
def JwtError.isJsonWebTokenError : JwtError → Bool :=
  fun _ => true

/-- `error instanceof jwt.TokenExpiredError`. -/
def JwtError.isTokenExpiredError : JwtError → Bool
  | .tokenExpiredError => true
  | _ => false

/-- `error.message` of a `jsonwebtoken` verification error. -/
def JwtError.message : JwtError → String
  | .jsonWebTokenError m => m
  | .tokenExpiredError => "jwt expired"

namespace jwt

/-- `jwt.sign(payload, secret, { expiresIn })` at clock time `now`
(seconds): sets `iat = now`, `exp = now + expiresIn`. -/
def sign (payload : Payload) (secret : String) (now : Nat) (expiresIn : Nat) : Jwt :=
  .signed payload now (now + expiresIn) secret

/-- `jwt.verify(token, secret)` at clock time `now`: malformed tokens and
signature mismatches throw `JsonWebTokenError` (checked first), then
expiry (`now >= exp`) throws `TokenExpiredError`; otherwise the decoded
payload is returned. -/
def verify (token : Jwt) (secret : String) (now : Nat) : Except JwtError Payload :=
  match token with
  | .malformed _ => .error (.jsonWebTokenError "jwt malformed")
  | .signed p _iat exp s =>
    if s ≠ secret then .error (.jsonWebTokenError "invalid signature")
    else if exp ≤ now then .error .tokenExpiredError
    else .ok p

end jwt

/-- The two signing secrets from `config/env` (`JWT_SECRET`,
`JWT_REFRESH_SECRET`). -/
structure Env where
  JWT_SECRET : String
  JWT_REFRESH_SECRET : String
deriving DecidableEq, Repr

/-- `TOKEN_EXPIRATION.ACCESS_TOKEN = '15m'` from `auth.constants.ts`,
in seconds. -/
def TOKEN_EXPIRATION.ACCESS_TOKEN : Nat := 15 * 60

/-- `TOKEN_EXPIRATION.REFRESH_TOKEN = '7d'` from `auth.constants.ts`,
in seconds. -/
def TOKEN_EXPIRATION.REFRESH_TOKEN : Nat := 7 * 24 * 60 * 60

namespace AUTH_ERRORS

def INVALID_CREDENTIALS : String := "Invalid email or password"

def USER_NOT_FOUND : String := "Invalid email or password"

def USER_INACTIVE : String := "Account is inactive. Please contact administrator"

def TOKEN_EXPIRED : String := "Token has expired"

def TOKEN_INVALID : String := "Invalid token"

def REFRESH_TOKEN_INVALID : String := "Invalid refresh token"

def UNAUTHORIZED : String := "Unauthorized access"

def FORBIDDEN : String := "Insufficient permissions"

end AUTH_ERRORS

/-- User document from `auth.model.ts` (`IUserDocument`); `id` models the
Mongo `_id`, `password` the bcrypt hash, `refreshToken` the stored
refresh-token fingerprint (absent after `$unset`). -/
structure IUserDocument where
  id : String
  email : String
  password : String
  role : UserRole
  isActive : Bool
  refreshToken : Option Jwt
deriving DecidableEq, Repr

/-- `User.findOne({ email })`: first stored document with that email. -/
def findOneByEmail (store : List IUserDocument) (email : String) : Option IUserDocument :=
  store.find? (fun u => u.email == email)

/-- `User.findById(id)`: first stored document with that id. -/
def findById (store : List IUserDocument) (id : String) : Option IUserDocument :=
  store.find? (fun u => u.id == id)

/-- `doc.save()` / `findByIdAndUpdate`: replace the record with `doc.id`
by `doc`. -/
def saveDoc (store : List IUserDocument) (doc : IUserDocument) : List IUserDocument :=
  store.map (fun u => if u.id == doc.id then doc else u)

/-- Login request body after validation (`LoginInput`). -/
structure LoginInput where
  email : String
  password : String
deriving DecidableEq, Repr

/-- The public user view returned by `loginUser`: only id, email, role
(no `password`, no `refreshToken` field exists in this type). -/
structure PublicUser where
  id : String
  email : String
  role : UserRole
deriving DecidableEq, Repr

/-- `LoginResponse` from `auth.types.ts`. -/
structure LoginResponse where
  accessToken : Jwt
  refreshToken : Jwt
  user : PublicUser
deriving DecidableEq, Repr

/-- `generateAccessToken` from `auth.service.ts`: sign the payload with
`env.JWT_SECRET`, expiring in `TOKEN_EXPIRATION.ACCESS_TOKEN`. -/
def generateAccessToken (env : Env) (now : Nat) (payload : JWTPayload) : Jwt :=
  jwt.sign (.access payload) env.JWT_SECRET now TOKEN_EXPIRATION.ACCESS_TOKEN

/-- `generateRefreshToken` from `auth.service.ts`: sign `{ userId }` with
`env.JWT_REFRESH_SECRET`, expiring in `TOKEN_EXPIRATION.REFRESH_TOKEN`. -/
def generateRefreshToken (env : Env) (now : Nat) (userId : String) : Jwt :=
  jwt.sign (.refresh userId) env.JWT_REFRESH_SECRET now TOKEN_EXPIRATION.REFRESH_TOKEN

/-- `loginUser` from `auth.service.ts`.  `cmp` is
`user.comparePassword` (bcrypt.compare, external to the repo), applied to
the candidate password and the stored hash.  Errors are the thrown
`Error` messages; on success the updated store (after `user.save()`) is
returned alongside the response. -/
def loginUser (env : Env) (cmp : String → String → Bool) (now : Nat)
    (store : List IUserDocument) (input : LoginInput) :
    Except String (LoginResponse × List IUserDocument) :=
  match findOneByEmail store input.email with
  | none => .error AUTH_ERRORS.INVALID_CREDENTIALS
  | some user =>
    if !user.isActive then .error AUTH_ERRORS.USER_INACTIVE
    else if !(cmp input.password user.password) then .error AUTH_ERRORS.INVALID_CREDENTIALS
    else
      let payload : JWTPayload := ⟨user.id, user.email, user.role⟩
      let accessToken := generateAccessToken env now payload
      let refreshToken := generateRefreshToken env now user.id
      .ok (⟨accessToken, refreshToken, ⟨user.id, user.email, user.role⟩⟩,
           saveDoc store { user with refreshToken := some refreshToken })

/-- `refreshAccessToken` from `auth.service.ts`.  The try/catch maps every
`JsonWebTokenError` (which includes `TokenExpiredError`) from
`jwt.verify` to `REFRESH_TOKEN_INVALID`; the plain `Error`s thrown inside
the try block are not `JsonWebTokenError`s and are rethrown unchanged. -/
def refreshAccessToken (env : Env) (now : Nat) (store : List IUserDocument)
    (refreshToken : Jwt) : Except String Jwt :=
  match jwt.verify refreshToken env.JWT_REFRESH_SECRET now with
  | .error e =>
    if e.isJsonWebTokenError then .error AUTH_ERRORS.REFRESH_TOKEN_INVALID
    else .error e.message
  | .ok decoded =>
    match findById store decoded.userId with
    | none => .error AUTH_ERRORS.USER_INACTIVE
    | some user =>
      if !user.isActive then .error AUTH_ERRORS.USER_INACTIVE
      else if user.refreshToken ≠ some refreshToken then
        .error AUTH_ERRORS.REFRESH_TOKEN_INVALID
      else .ok (generateAccessToken env now ⟨user.id, user.email, user.role⟩)

/-- `logoutUser` from `auth.service.ts`:
`findByIdAndUpdate(userId, { $unset: { refreshToken: 1 } })` — clears the
stored fingerprint of the matching record; a missing id is not an error
(the update simply matches nothing), and the operation throws nothing. -/
def logoutUser (store : List IUserDocument) (userId : String) : List IUserDocument :=
  store.map (fun u => if u.id == userId then { u with refreshToken := none } else u)

/-- The `Authorization` header of an inbound request, abstracting the raw
string: absent, present with a non-`Bearer ` scheme, or
`Bearer <token>` carrying a token. -/
inductive AuthHeader where
  | missing
  | notBearer (raw : String)
  | bearer (token : Jwt)
deriving Repr

/-- Outcome of the `authenticate` middleware: an error response
(`res.status(s).json({ error: { message } })`), success
(`req.user = decoded; next()`), or delegation of a non-JWT error to the
error middleware (`next(error)`). -/
inductive MiddlewareOutcome where
  | respond (status : Nat) (message : String)
  | proceed (user : Payload)
  | nextError (message : String)
deriving DecidableEq, Repr

/-- `authenticate` from `auth.middleware.ts`.  Note the catch block tests
`instanceof jwt.JsonWebTokenError` BEFORE `instanceof
jwt.TokenExpiredError`; since the latter class extends the former, the
first test also captures expired-token errors. -/
def authenticate (env : Env) (now : Nat) (header : AuthHeader) : MiddlewareOutcome :=
  match header with
  | .missing => .respond 401 AUTH_ERRORS.UNAUTHORIZED
  | .notBearer _ => .respond 401 AUTH_ERRORS.UNAUTHORIZED
  | .bearer token =>
    match jwt.verify token env.JWT_SECRET now with
    | .ok decoded => .proceed decoded
    | .error e =>
      if e.isJsonWebTokenError then .respond 401 AUTH_ERRORS.TOKEN_INVALID
      else if e.isTokenExpiredError then .respond 401 AUTH_ERRORS.TOKEN_EXPIRED
      else .nextError e.message

/-- Outcome of the RBAC middleware: an error response or `next()`. -/
inductive RbacOutcome where
  | respond (status : Nat) (message : String)
  | proceed
deriving DecidableEq, Repr

/-- `requireRole(...allowedRoles)` from `rbac.middleware.ts`, applied to
`req.user` (absent when `authenticate` did not run or rejected). -/
def requireRole (allowedRoles : List UserRole) (user : Option JWTPayload) : RbacOutcome :=
  match user with
  | none => .respond 401 AUTH_ERRORS.UNAUTHORIZED
  | some u =>
    if !(allowedRoles.contains u.role) then .respond 403 AUTH_ERRORS.FORBIDDEN
    else .proceed

/-- `requireSuperAdmin()` from `rbac.middleware.ts`. -/
def requireSuperAdmin : Option JWTPayload → RbacOutcome :=
  requireRole [UserRole.SUPER_ADMIN]

/-- `requireHR()` from `rbac.middleware.ts`. -/
def requireHR : Option JWTPayload → RbacOutcome :=
  requireRole [UserRole.HR, UserRole.SUPER_ADMIN]

/-- `requireManager()` from `rbac.middleware.ts`. -/
def requireManager : Option JWTPayload → RbacOutcome :=
  requireRole [UserRole.MANAGER, UserRole.HR, UserRole.SUPER_ADMIN]

/-- `requireEmployee()` from `rbac.middleware.ts`. -/
def requireEmployee : Option JWTPayload → RbacOutcome :=
  requireRole [UserRole.EMPLOYEE, UserRole.MANAGER, UserRole.HR, UserRole.SUPER_ADMIN]

end EmployeHR

namespace EmployeHR

/-- A concrete environment with two distinct 32+ character secrets, used
for concrete evaluations. -/
def envDemo : Env :=
  ⟨"access-secret-0123456789abcdef-0123456789", "refresh-secret-0123456789abcdef-012345678"⟩

/-- C1: the claim says an expired, correctly signed access token is
answered with the distinguishable message 'Token has expired'.  The code
disagrees: the token below is validly signed with `JWT_SECRET` and
expired at time 2000 (issued at 0, 15-minute = 900 s lifetime), and
`jwt.verify` classifies it as `TokenExpiredError`; yet `authenticate`
responds 401 'Invalid token', because the catch block tests `instanceof
JsonWebTokenError` first and `TokenExpiredError` extends
`JsonWebTokenError`, leaving the 'Token has expired' branch
unreachable. -/
theorem c1_expired_access_token_answered_invalid_token :
    jwt.verify (jwt.sign (.access ⟨"u1", "a@b.c", .EMPLOYEE⟩) envDemo.JWT_SECRET 0
        TOKEN_EXPIRATION.ACCESS_TOKEN) envDemo.JWT_SECRET 2000
      = .error .tokenExpiredError
    ∧ authenticate envDemo 2000
        (.bearer (jwt.sign (.access ⟨"u1", "a@b.c", .EMPLOYEE⟩) envDemo.JWT_SECRET 0
          TOKEN_EXPIRATION.ACCESS_TOKEN))
      = .respond 401 AUTH_ERRORS.TOKEN_INVALID
    ∧ AUTH_ERRORS.TOKEN_INVALID ≠ AUTH_ERRORS.TOKEN_EXPIRED := by
  refine ⟨rfl, rfl, ?_⟩
  decide

/-- C5: the role authorizer fails closed with 401 'Unauthorized access'
when no claims are attached (never 403); with claims present it proceeds
exactly when the claimed role is a member of the allow-list, and responds
403 'Insufficient permissions' otherwise; and the HR gate admits exactly
the roles HR and SUPER_ADMIN (explicit membership, no hierarchy). -/
theorem c5_requireRole_gating (R : List UserRole) (u v : JWTPayload)
    (hu : u.role ∈ R) (hv : v.role ∉ R) :
    requireRole R none = .respond 401 AUTH_ERRORS.UNAUTHORIZED
    ∧ requireRole R (some u) = .proceed
    ∧ requireRole R (some v) = .respond 403 AUTH_ERRORS.FORBIDDEN
    ∧ (∀ w : JWTPayload, requireRole R (some w) = .proceed ↔ w.role ∈ R)
    ∧ (∀ w : JWTPayload,
        requireHR (some w) = .proceed ↔ (w.role = .HR ∨ w.role = .SUPER_ADMIN)) := by
  refine ⟨rfl, ?_, ?_, ?_, ?_⟩
  · simp [requireRole, hu]
  · simp [requireRole, hv]
  · intro w
    by_cases hw : w.role ∈ R <;> simp [requireRole, hw]
  · intro w
    cases hw : w.role <;> simp [requireHR, requireRole, hw]

/-- Witness for C5 at a concrete allow-list and concrete claims. -/
theorem c5_requireRole_gating_witness :
    requireRole [UserRole.HR, UserRole.SUPER_ADMIN] none
        = .respond 401 AUTH_ERRORS.UNAUTHORIZED
    ∧ requireRole [UserRole.HR, UserRole.SUPER_ADMIN] (some ⟨"u1", "hr@x.y", .HR⟩) = .proceed
    ∧ requireRole [UserRole.HR, UserRole.SUPER_ADMIN] (some ⟨"u2", "emp@x.y", .EMPLOYEE⟩)
        = .respond 403 AUTH_ERRORS.FORBIDDEN
    ∧ (∀ w : JWTPayload,
        requireRole [UserRole.HR, UserRole.SUPER_ADMIN] (some w) = .proceed ↔
          w.role ∈ [UserRole.HR, UserRole.SUPER_ADMIN])
    ∧ (∀ w : JWTPayload,
        requireHR (some w) = .proceed ↔ (w.role = .HR ∨ w.role = .SUPER_ADMIN)) :=
  c5_requireRole_gating [UserRole.HR, UserRole.SUPER_ADMIN]
    ⟨"u1", "hr@x.y", .HR⟩ ⟨"u2", "emp@x.y", .EMPLOYEE⟩ (by decide) (by decide)

/-- C6: round-trip of the token issuer.  Verifying an access token
produced by `generateAccessToken` with the access secret yields exactly
the signed claims at any time `t1` strictly before expiry
(`iat + 900 s`), and deterministically yields the `TokenExpiredError`
outcome at any time `t2` at or after expiry. -/
theorem c6_access_token_roundtrip (env : Env) (p : JWTPayload) (now t1 t2 : Nat)
    (h1 : t1 < now + TOKEN_EXPIRATION.ACCESS_TOKEN)
    (h2 : now + TOKEN_EXPIRATION.ACCESS_TOKEN ≤ t2) :
    jwt.verify (generateAccessToken env now p) env.JWT_SECRET t1 = .ok (.access p)
    ∧ jwt.verify (generateAccessToken env now p) env.JWT_SECRET t2
        = .error .tokenExpiredError := by
  constructor
  · simp [generateAccessToken, jwt.sign, jwt.verify, Nat.not_le.mpr h1]
  · simp [generateAccessToken, jwt.sign, jwt.verify, h2]

/-- Witness for C6 at a concrete environment, payload and clock times. -/
theorem c6_access_token_roundtrip_witness :
    jwt.verify (generateAccessToken envDemo 100 ⟨"u1", "a@b.c", .MANAGER⟩)
        envDemo.JWT_SECRET 999 = .ok (.access ⟨"u1", "a@b.c", .MANAGER⟩)
    ∧ jwt.verify (generateAccessToken envDemo 100 ⟨"u1", "a@b.c", .MANAGER⟩)
        envDemo.JWT_SECRET 1000 = .error .tokenExpiredError :=
  c6_access_token_roundtrip envDemo ⟨"u1", "a@b.c", .MANAGER⟩ 100 999 1000
    (by decide) (by decide)

/-- C8: `logoutUser` is idempotent — running it twice equals running it
once — and after a logout every stored record with the given id has no
refresh fingerprint.  `logoutUser` is a total function (the underlying
`findByIdAndUpdate` update throws nothing and matching no record is not
an error), so neither call produces an error. -/
theorem c8_logout_idempotent (store : List IUserDocument) (userId : String) :
    logoutUser (logoutUser store userId) userId = logoutUser store userId
    ∧ ∀ u ∈ logoutUser store userId, u.id = userId → u.refreshToken = none := by
  constructor
  · unfold logoutUser
    rw [List.map_map]
    refine List.map_congr_left ?_
    intro a _
    by_cases h : a.id = userId <;> simp [h]
  · intro u hu hid
    rcases List.mem_map.mp hu with ⟨a, _, rfl⟩
    by_cases h : a.id = userId
    · simp [h]
    · simp [h] at hid

/-- Witness for C8 on a concrete store holding a live fingerprint. -/
theorem c8_logout_idempotent_witness :
    logoutUser (logoutUser
        [⟨"u1", "a@b.c", "hash", .EMPLOYEE, true,
          some (generateRefreshToken envDemo 0 "u1")⟩] "u1") "u1"
      = logoutUser
        [⟨"u1", "a@b.c", "hash", .EMPLOYEE, true,
          some (generateRefreshToken envDemo 0 "u1")⟩] "u1"
    ∧ ∀ u ∈ logoutUser
        [⟨"u1", "a@b.c", "hash", .EMPLOYEE, true,
          some (generateRefreshToken envDemo 0 "u1")⟩] "u1",
        u.id = "u1" → u.refreshToken = none :=
  c8_logout_idempotent
    [⟨"u1", "a@b.c", "hash", .EMPLOYEE, true,
      some (generateRefreshToken envDemo 0 "u1")⟩] "u1"

end EmployeHR

namespace EmployeHR

/-- Plaintext-equality stand-in for `bcrypt.compare` used in concrete
witnesses (the hasher itself lives outside the repository). -/
def cmpDemo : String → String → Bool := fun candidate digest => candidate == digest

/-- After saving a document whose id occurs in the store, looking it up
by that id returns exactly the saved document. -/
theorem findById_saveDoc (store : List IUserDocument) (doc : IUserDocument)
    (h : ∃ u ∈ store, u.id = doc.id) :
    findById (saveDoc store doc) doc.id = some doc := by
  induction store with
  | nil => simp at h
  | cons a as ih =>
    by_cases hid : a.id = doc.id
    · simp [findById, saveDoc, List.find?, hid]
    · obtain ⟨u, hu, hid'⟩ := h
      rcases List.mem_cons.mp hu with rfl | hu'
      · exact absurd hid' hid
      · have hstep : findById (saveDoc (a :: as) doc) doc.id
            = findById (saveDoc as doc) doc.id := by
          simp only [saveDoc, List.map_cons, findById]
          refine List.find?_cons_of_neg _ ?_
          simp [hid]
        rw [hstep]
        exact ih ⟨u, hu', hid'⟩

/-- C2: the stored fingerprint is a single optional field
(`refreshToken : Option Jwt`), so an account stores at most one; and any
refresh request whose presented token differs from that stored
fingerprint — a superseded token (the field now holds a later login's
token) or any token after logout cleared the field to `none` — is
rejected with `REFRESH_TOKEN_INVALID`, even though the token verifies
(valid signature, unexpired) and the account is active. -/
theorem c2_refresh_rejects_mismatched_fingerprint
    (env : Env) (now : Nat) (store : List IUserDocument) (tok : Jwt)
    (decoded : Payload) (user : IUserDocument)
    (hver : jwt.verify tok env.JWT_REFRESH_SECRET now = .ok decoded)
    (hfind : findById store decoded.userId = some user)
    (hact : user.isActive = true)
    (hmismatch : user.refreshToken ≠ some tok) :
    refreshAccessToken env now store tok = .error AUTH_ERRORS.REFRESH_TOKEN_INVALID := by
  simp [refreshAccessToken, hver, hfind, hact, hmismatch]

/-- Witness for C2: logout cleared the fingerprint (`none`), and the
just-invalidated, still validly signed and unexpired refresh token is
rejected. -/
theorem c2_refresh_rejects_mismatched_fingerprint_witness :
    refreshAccessToken envDemo 10
        [⟨"u1", "a@b.c", "hash", .EMPLOYEE, true, none⟩]
        (jwt.sign (.refresh "u1") envDemo.JWT_REFRESH_SECRET 0 TOKEN_EXPIRATION.REFRESH_TOKEN)
      = .error AUTH_ERRORS.REFRESH_TOKEN_INVALID :=
  c2_refresh_rejects_mismatched_fingerprint envDemo 10
    [⟨"u1", "a@b.c", "hash", .EMPLOYEE, true, none⟩]
    (jwt.sign (.refresh "u1") envDemo.JWT_REFRESH_SECRET 0 TOKEN_EXPIRATION.REFRESH_TOKEN)
    (.refresh "u1") ⟨"u1", "a@b.c", "hash", .EMPLOYEE, true, none⟩
    rfl rfl rfl (by simp)

/-- C3: for a stored active account and a matching password, `loginUser`
succeeds, returning the access and refresh tokens signed from the
account's id/email/role and the public view `⟨id, email, role⟩` (the
`PublicUser` type has no password or fingerprint field); the store is
updated by overwriting the account's `refreshToken` with the new refresh
token; the returned access token verifies back to exactly the account's
claims before expiry; and the saved record — holding exactly the new
fingerprint — is what a subsequent lookup by the account id returns. -/
theorem c3_login_success (env : Env) (cmp : String → String → Bool) (now t : Nat)
    (store : List IUserDocument) (input : LoginInput) (user : IUserDocument)
    (hfind : findOneByEmail store input.email = some user)
    (hact : user.isActive = true)
    (hcmp : cmp input.password user.password = true)
    (ht : t < now + TOKEN_EXPIRATION.ACCESS_TOKEN) :
    loginUser env cmp now store input =
      .ok (⟨generateAccessToken env now ⟨user.id, user.email, user.role⟩,
            generateRefreshToken env now user.id,
            ⟨user.id, user.email, user.role⟩⟩,
        saveDoc store { user with refreshToken := some (generateRefreshToken env now user.id) })
    ∧ jwt.verify (generateAccessToken env now ⟨user.id, user.email, user.role⟩)
        env.JWT_SECRET t = .ok (.access ⟨user.id, user.email, user.role⟩)
    ∧ findById
        (saveDoc store { user with refreshToken := some (generateRefreshToken env now user.id) })
        user.id
      = some { user with refreshToken := some (generateRefreshToken env now user.id) } := by
  refine ⟨?_, ?_, ?_⟩
  · simp [loginUser, hfind, hact, hcmp]
  · simp [generateAccessToken, jwt.sign, jwt.verify, Nat.not_le.mpr ht]
  · exact findById_saveDoc store
      { user with refreshToken := some (generateRefreshToken env now user.id) }
      ⟨user, List.mem_of_find?_eq_some hfind, rfl⟩

/-- Witness for C3 on a concrete active account and matching password. -/
theorem c3_login_success_witness :
    loginUser envDemo cmpDemo 0
        [⟨"u1", "alice@x.y", "Secret-Pw1!", .HR, true, none⟩] ⟨"alice@x.y", "Secret-Pw1!"⟩ =
      .ok (⟨generateAccessToken envDemo 0 ⟨"u1", "alice@x.y", .HR⟩,
            generateRefreshToken envDemo 0 "u1",
            ⟨"u1", "alice@x.y", .HR⟩⟩,
        saveDoc [⟨"u1", "alice@x.y", "Secret-Pw1!", .HR, true, none⟩]
          ⟨"u1", "alice@x.y", "Secret-Pw1!", .HR, true,
            some (generateRefreshToken envDemo 0 "u1")⟩)
    ∧ jwt.verify (generateAccessToken envDemo 0 ⟨"u1", "alice@x.y", .HR⟩)
        envDemo.JWT_SECRET 899 = .ok (.access ⟨"u1", "alice@x.y", .HR⟩)
    ∧ findById
        (saveDoc [⟨"u1", "alice@x.y", "Secret-Pw1!", .HR, true, none⟩]
          ⟨"u1", "alice@x.y", "Secret-Pw1!", .HR, true,
            some (generateRefreshToken envDemo 0 "u1")⟩) "u1"
      = some ⟨"u1", "alice@x.y", "Secret-Pw1!", .HR, true,
          some (generateRefreshToken envDemo 0 "u1")⟩ :=
  c3_login_success envDemo cmpDemo 0 899
    [⟨"u1", "alice@x.y", "Secret-Pw1!", .HR, true, none⟩] ⟨"alice@x.y", "Secret-Pw1!"⟩
    ⟨"u1", "alice@x.y", "Secret-Pw1!", .HR, true, none⟩ rfl rfl rfl (by decide)

/-- C4 counterexample: the claim quantifies over every stored account,
but for a stored INACTIVE account `loginUser` with an incorrect password
fails with 'Account is inactive. Please contact administrator'
(the active check precedes the password check), while a nonexistent
email fails with 'Invalid email or password' — the two responses
differ. -/
theorem c4_counterexample :
    loginUser envDemo cmpDemo 0
        [⟨"u1", "inactive@x.y", "stored-hash", .EMPLOYEE, false, none⟩]
        ⟨"inactive@x.y", "wrong-password"⟩
      = .error AUTH_ERRORS.USER_INACTIVE
    ∧ loginUser envDemo cmpDemo 0
        [⟨"u1", "inactive@x.y", "stored-hash", .EMPLOYEE, false, none⟩]
        ⟨"ghost@x.y", "wrong-password"⟩
      = .error AUTH_ERRORS.INVALID_CREDENTIALS
    ∧ AUTH_ERRORS.USER_INACTIVE ≠ AUTH_ERRORS.INVALID_CREDENTIALS := by
  exact ⟨rfl, rfl, by decide⟩

/-- C4 (amended to stored ACTIVE accounts): `loginUser` with an incorrect
password against a stored active account and `loginUser` with an email no
account has produce the identical error value — the same
'Invalid email or password' message — so the two failures are
indistinguishable by the response. -/
theorem c4_wrong_password_indistinguishable_from_unknown_email
    (env : Env) (cmp : String → String → Bool) (now : Nat)
    (store : List IUserDocument) (input1 input2 : LoginInput) (user : IUserDocument)
    (hfind : findOneByEmail store input1.email = some user)
    (hact : user.isActive = true)
    (hcmp : cmp input1.password user.password = false)
    (hnone : findOneByEmail store input2.email = none) :
    loginUser env cmp now store input1 = .error AUTH_ERRORS.INVALID_CREDENTIALS
    ∧ loginUser env cmp now store input2 = .error AUTH_ERRORS.INVALID_CREDENTIALS
    ∧ loginUser env cmp now store input1 = loginUser env cmp now store input2 := by
  refine ⟨?_, ?_, ?_⟩
  · simp [loginUser, hfind, hact, hcmp]
  · simp [loginUser, hnone]
  · simp [loginUser, hfind, hact, hcmp, hnone]

/-- Witness for the amended C4 on a concrete store. -/
theorem c4_wrong_password_indistinguishable_witness :
    loginUser envDemo cmpDemo 0
        [⟨"u1", "alice@x.y", "Secret-Pw1!", .EMPLOYEE, true, none⟩]
        ⟨"alice@x.y", "not-the-password"⟩
      = .error AUTH_ERRORS.INVALID_CREDENTIALS
    ∧ loginUser envDemo cmpDemo 0
        [⟨"u1", "alice@x.y", "Secret-Pw1!", .EMPLOYEE, true, none⟩]
        ⟨"ghost@x.y", "not-the-password"⟩
      = .error AUTH_ERRORS.INVALID_CREDENTIALS
    ∧ loginUser envDemo cmpDemo 0
        [⟨"u1", "alice@x.y", "Secret-Pw1!", .EMPLOYEE, true, none⟩]
        ⟨"alice@x.y", "not-the-password"⟩
      = loginUser envDemo cmpDemo 0
        [⟨"u1", "alice@x.y", "Secret-Pw1!", .EMPLOYEE, true, none⟩]
        ⟨"ghost@x.y", "not-the-password"⟩ :=
  c4_wrong_password_indistinguishable_from_unknown_email envDemo cmpDemo 0
    [⟨"u1", "alice@x.y", "Secret-Pw1!", .EMPLOYEE, true, none⟩]
    ⟨"alice@x.y", "not-the-password"⟩ ⟨"ghost@x.y", "not-the-password"⟩
    ⟨"u1", "alice@x.y", "Secret-Pw1!", .EMPLOYEE, true, none⟩
    rfl rfl (by decide) rfl

/-- C7: a refresh request whose token verifies (valid signature,
unexpired) still fails with 'Account is inactive. Please contact
administrator' when the account the token's embedded id names is missing
from the store or has `isActive = false`. -/
theorem c7_refresh_fails_for_missing_or_inactive_account
    (env : Env) (now : Nat) (store : List IUserDocument) (tok : Jwt) (decoded : Payload)
    (hver : jwt.verify tok env.JWT_REFRESH_SECRET now = .ok decoded)
    (hmiss : findById store decoded.userId = none
      ∨ ∃ user, findById store decoded.userId = some user ∧ user.isActive = false) :
    refreshAccessToken env now store tok = .error AUTH_ERRORS.USER_INACTIVE := by
  rcases hmiss with hm | ⟨user, hf, hin⟩
  · simp [refreshAccessToken, hver, hm]
  · simp [refreshAccessToken, hver, hf, hin]

/-- Witness for C7: a deactivated account with a still-valid refresh
token. -/
theorem c7_refresh_fails_for_missing_or_inactive_account_witness :
    refreshAccessToken envDemo 10
        [⟨"u1", "a@b.c", "hash", .EMPLOYEE, false,
          some (generateRefreshToken envDemo 0 "u1")⟩]
        (generateRefreshToken envDemo 0 "u1")
      = .error AUTH_ERRORS.USER_INACTIVE :=
  c7_refresh_fails_for_missing_or_inactive_account envDemo 10
    [⟨"u1", "a@b.c", "hash", .EMPLOYEE, false,
      some (generateRefreshToken envDemo 0 "u1")⟩]
    (generateRefreshToken envDemo 0 "u1") (.refresh "u1") rfl
    (.inr ⟨⟨"u1", "a@b.c", "hash", .EMPLOYEE, false,
      some (generateRefreshToken envDemo 0 "u1")⟩, rfl, rfl⟩)

/-- C9: with the two secrets distinct, verifying a token against the
other component's secret fails as the 'invalid signature'
`JsonWebTokenError` (never a crash — every outcome is a typed error);
`refreshAccessToken` surfaces it as 'Invalid refresh token' and
`authenticate` as 401 'Invalid token'. -/
theorem c9_wrong_secret_fails_as_signature_invalid
    (env : Env) (p q : Payload) (iat life now : Nat) (store : List IUserDocument)
    (hne : env.JWT_SECRET ≠ env.JWT_REFRESH_SECRET) :
    jwt.verify (jwt.sign p env.JWT_SECRET iat life) env.JWT_REFRESH_SECRET now
      = .error (.jsonWebTokenError "invalid signature")
    ∧ jwt.verify (jwt.sign q env.JWT_REFRESH_SECRET iat life) env.JWT_SECRET now
      = .error (.jsonWebTokenError "invalid signature")
    ∧ refreshAccessToken env now store (jwt.sign p env.JWT_SECRET iat life)
      = .error AUTH_ERRORS.REFRESH_TOKEN_INVALID
    ∧ authenticate env now (.bearer (jwt.sign q env.JWT_REFRESH_SECRET iat life))
      = .respond 401 AUTH_ERRORS.TOKEN_INVALID := by
  refine ⟨?_, ?_, ?_, ?_⟩
  · simp [jwt.sign, jwt.verify, hne]
  · simp [jwt.sign, jwt.verify, Ne.symm hne]
  · simp [refreshAccessToken, jwt.sign, jwt.verify, hne, JwtError.isJsonWebTokenError]
  · simp [authenticate, jwt.sign, jwt.verify, Ne.symm hne, JwtError.isJsonWebTokenError]

/-- Witness for C9 at the concrete environment (distinct secrets). -/
theorem c9_wrong_secret_fails_witness :
    jwt.verify (jwt.sign (.access ⟨"u1", "a@b.c", .EMPLOYEE⟩) envDemo.JWT_SECRET 0 900)
        envDemo.JWT_REFRESH_SECRET 10
      = .error (.jsonWebTokenError "invalid signature")
    ∧ jwt.verify (jwt.sign (.refresh "u1") envDemo.JWT_REFRESH_SECRET 0 900)
        envDemo.JWT_SECRET 10
      = .error (.jsonWebTokenError "invalid signature")
    ∧ refreshAccessToken envDemo 10 []
        (jwt.sign (.access ⟨"u1", "a@b.c", .EMPLOYEE⟩) envDemo.JWT_SECRET 0 900)
      = .error AUTH_ERRORS.REFRESH_TOKEN_INVALID
    ∧ authenticate envDemo 10 (.bearer (jwt.sign (.refresh "u1") envDemo.JWT_REFRESH_SECRET 0 900))
      = .respond 401 AUTH_ERRORS.TOKEN_INVALID :=
  c9_wrong_secret_fails_as_signature_invalid envDemo
    (.access ⟨"u1", "a@b.c", .EMPLOYEE⟩) (.refresh "u1") 0 900 10 [] (by decide)

/-- C10: a successful refresh issues an access token signed from the
account record as currently stored — `⟨user.id, user.email, user.role⟩`
for the `user` found in the store at refresh time — not from anything
embedded in the presented refresh token (whose payload carries only the
id); a role or email change written to the store between login and
refresh therefore appears in the next access token. -/
theorem c10_refresh_claims_from_current_store
    (env : Env) (now : Nat) (store : List IUserDocument) (tok : Jwt)
    (decoded : Payload) (user : IUserDocument)
    (hver : jwt.verify tok env.JWT_REFRESH_SECRET now = .ok decoded)
    (hfind : findById store decoded.userId = some user)
    (hact : user.isActive = true)
    (hmatch : user.refreshToken = some tok) :
    refreshAccessToken env now store tok
      = .ok (generateAccessToken env now ⟨user.id, user.email, user.role⟩) := by
  simp [refreshAccessToken, hver, hfind, hact, hmatch]

/-- Witness for C10: the account's role was changed to HR after the
refresh token was issued; the refreshed access token carries HR. -/
theorem c10_refresh_claims_from_current_store_witness :
    refreshAccessToken envDemo 10
        [⟨"u1", "new-mail@x.y", "hash", .HR, true,
          some (generateRefreshToken envDemo 0 "u1")⟩]
        (generateRefreshToken envDemo 0 "u1")
      = .ok (generateAccessToken envDemo 10 ⟨"u1", "new-mail@x.y", .HR⟩) :=
  c10_refresh_claims_from_current_store envDemo 10
    [⟨"u1", "new-mail@x.y", "hash", .HR, true,
      some (generateRefreshToken envDemo 0 "u1")⟩]
    (generateRefreshToken envDemo 0 "u1") (.refresh "u1")
    ⟨"u1", "new-mail@x.y", "hash", .HR, true,
      some (generateRefreshToken envDemo 0 "u1")⟩
    rfl rfl rfl rfl

end EmployeHR
